import Mathlib

/-!
Verification development for the android-stt backend.

This file gives a shallow embedding of the transcription orchestration layer
of the repository and proves properties about it:

* `backend/config/speech-config.js` (part_003): configuration constants and
  user-facing error message strings.
* `backend/services/google-stt-service.js` (part_001): `validateAudioFile`,
  `checkRateLimit`, `getEncodingConfig`, `transcribeAudio`,
  `transcribeLongAudio`.
* the `WorkloadIdentityManager` (part_002 — the revised copy whose accessors
  fail fast; the sibling copy at `src/backend/auth/workload-identity-setup.js`
  differs and is discussed in comments where relevant).

Modelling conventions:
* JavaScript numbers are embedded as `Nat` where the source only ever holds
  non-negative integers (byte counts, timestamps, milliseconds) and as `ℚ`
  where the source computes fractional values (confidences, durations).
* Thrown `Error` objects are embedded as `JsError` values carried in
  `Except`; a JS `Error` made with `new Error(msg)` has no `code` property,
  so its embedded `code` is `none`.
* Network effects (the remote recognizer, the credential endpoints) are
  oracles passed in as explicit arguments; a `Bool` component of the result
  records whether the network was actually touched.
-/

/-- Embeds `Char.toLowerCase` for the ASCII range, which is the behaviour of
the JavaScript `String.prototype.toLowerCase` on the ASCII format strings the
service handles. Defined structurally so it evaluates by `decide`. -/
def chLower (c : Char) : Char :=
  if 65 ≤ c.toNat ∧ c.toNat ≤ 90 then Char.ofNat (c.toNat + 32) else c

/-- Embeds JavaScript `format.toLowerCase()` (ASCII range). -/
def strLower (s : String) : String := String.mk (s.data.map chLower)

/-- Helper for `strIncludes`: does `pat` start the character list `s`? -/
def chStarts : List Char → List Char → Bool
  | [], _ => true
  | _ :: _, [] => false
  | p :: ps, c :: cs => p == c && chStarts ps cs

/-- Helper for `strIncludes`: does `pat` occur anywhere in the list? -/
def chHas (pat : List Char) : List Char → Bool
  | [] => chStarts pat []
  | c :: cs => chStarts pat (c :: cs) || chHas pat cs

/-- Embeds JavaScript `s.includes(pat)` (substring containment). -/
def strIncludes (s pat : String) : Bool := chHas pat.data s.data

/-- Embeds the JavaScript expression `v || d` for string-valued `v`: both
`undefined` (here `none`) and the empty string are falsy. -/
def jsOrString (v : Option String) (d : String) : String :=
  match v with
  | none => d
  | some s => if s = "" then d else s

/-- Embeds the JavaScript expression `v || 0` for number-valued `v`:
`undefined` is falsy, and `0 || 0` is again `0`. -/
def jsOrRat (v : Option ℚ) : ℚ :=
  match v with
  | none => 0
  | some c => if c = 0 then 0 else c

/-- Embeds the JavaScript expression `v || d` for number-valued `v` with a
positive default `d` (used for `options.sampleRate || 16000`). -/
def jsOrNat (v : Option Nat) (d : Nat) : Nat :=
  match v with
  | none => d
  | some n => if n = 0 then d else n

/-- Decidable equality for `Except`, needed so that concrete runs of the
embedded services can be checked by `decide`. -/
instance {ε α : Type} [DecidableEq ε] [DecidableEq α] : DecidableEq (Except ε α) := fun x y =>
  match x, y with
  | .error a, .error b =>
    if h : a = b then isTrue (by rw [h]) else isFalse (fun hc => by cases hc; exact h rfl)
  | .error _, .ok _ => isFalse (fun hc => by cases hc)
  | .ok _, .error _ => isFalse (fun hc => by cases hc)
  | .ok a, .ok b =>
    if h : a = b then isTrue (by rw [h]) else isFalse (fun hc => by cases hc; exact h rfl)

/-- Embeds `speechConfig` from `backend/config/speech-config.js` (part_003). -/
structure SpeechConfig where
  encoding : String
  sampleRateHertz : Nat
  languageCode : String
  alternativeLanguageCodes : List String
  enableAutomaticPunctuation : Bool
  enableWordTimeOffsets : Bool
  enableWordConfidence : Bool
  model : String
  useEnhanced : Bool
  maxAudioLength : Nat
  maxFileSize : Nat
  supportedFormats : List String
  rateLimitPerMinute : Nat
  rateLimitPerHour : Nat
deriving DecidableEq

/-- The configuration values of part_003. -/
def speechConfig : SpeechConfig where
  encoding := "WEBM_OPUS"
  sampleRateHertz := 16000
  languageCode := "ja-JP"
  alternativeLanguageCodes := ["en-US"]
  enableAutomaticPunctuation := true
  enableWordTimeOffsets := true
  enableWordConfidence := true
  model := "latest_long"
  useEnhanced := true
  maxAudioLength := 300
  maxFileSize := 10 * 1024 * 1024
  supportedFormats := ["webm", "wav", "mp3", "ogg"]
  rateLimitPerMinute := 60
  rateLimitPerHour := 1000

/-- Embeds `errorMessages.UNSUPPORTED_FORMAT` from part_003. -/
def UNSUPPORTED_FORMAT : String := "対応していない音声フォーマットです"

/-- Embeds `errorMessages.FILE_TOO_LARGE` from part_003. -/
def FILE_TOO_LARGE : String := "ファイルサイズが大きすぎます（10MB以下にしてください）"

/-- Embeds `errorMessages.AUDIO_TOO_LONG` from part_003. -/
def AUDIO_TOO_LONG : String := "音声が長すぎます（5分以下にしてください）"

/-- Embeds `errorMessages.RATE_LIMIT_EXCEEDED` from part_003. -/
def RATE_LIMIT_EXCEEDED : String := "リクエスト制限を超えました。しばらく待ってから再試行してください"

/-- Embeds `errorMessages.AUTHENTICATION_FAILED` from part_003. -/
def AUTHENTICATION_FAILED : String := "認証に失敗しました"

/-- Embeds `errorMessages.TRANSCRIPTION_FAILED` from part_003. -/
def TRANSCRIPTION_FAILED : String := "音声の文字起こしに失敗しました"

/-- Message of the error thrown by `GoogleSTTService.initialize` (part_001
line 32) when the workload-identity handshake fails. -/
def sttInitFailMsg : String := "STTサービスの初期化に失敗しました"

/-- The default caller identity, `options.clientId || 'default'`
(part_001 line 108). -/
def defaultClientId : String := "default"

/-- The empty string (used where the source writes a string literal in an
expression position). -/
def emptyStr : String := ""

/-- The `': '` separator used when wrapping an unrecognized error
(part_001 line 221). -/
def colonSep : String := ": "

/-- The substring `'rate limit'` matched by the error classifier
(part_001 line 218). -/
def rateLimitPat : String := "rate limit"

/-- The substring `'quota'` matched by the error classifier
(part_001 line 218). -/
def quotaPat : String := "quota"

/-- Message of the TypeError raised when the first remote result carries an
empty alternatives array, so that `bestAlternative` is `undefined` and
line 176 of part_001 reads `.words` off it (engine text abridged). -/
def undefinedWordsMsg : String := "Cannot read properties of undefined (reading words)"

/-- An embedded thrown JavaScript `Error`: gRPC errors carry a numeric
`code`, errors made by `new Error(msg)` carry none. -/
structure JsError where
  code : Option Nat
  msg : String
deriving DecidableEq

/-- Embeds the catch-block of `transcribeAudio` (part_001 lines 208-223),
which classifies any error thrown inside the try-block: gRPC codes 3/8/16
map to fixed messages, a free-text `rate limit`/`quota` match maps to the
rate-limit message, and everything else is re-wrapped as
`TRANSCRIPTION_FAILED + ': ' + error.message`. -/
def classifyError (e : JsError) : JsError :=
  if e.code == some 3 then { code := none, msg := UNSUPPORTED_FORMAT }
  else if e.code == some 8 then { code := none, msg := RATE_LIMIT_EXCEEDED }
  else if e.code == some 16 then { code := none, msg := AUTHENTICATION_FAILED }
  else if strIncludes e.msg rateLimitPat || strIncludes e.msg quotaPat then
    { code := none, msg := RATE_LIMIT_EXCEEDED }
  else { code := none, msg := TRANSCRIPTION_FAILED ++ colonSep ++ e.msg }

/-- Association-list embedding of the JS `Map` lookup
`this.requestCount.get(clientId) || []` (part_001 line 60). -/
def mapGetD (m : List (String × List Nat)) (k : String) : List Nat :=
  match m with
  | [] => []
  | (k1, v) :: rest => if k1 == k then v else mapGetD rest k

/-- Association-list embedding of `Map.set` (part_001 line 78): replaces the
value at an existing key in place, otherwise appends the binding, matching
JS `Map` insertion-order semantics. -/
def mapSet (m : List (String × List Nat)) (k : String) (v : List Nat) :
    List (String × List Nat) :=
  match m with
  | [] => [(k, v)]
  | (k1, v1) :: rest => if k1 == k then (k, v) :: rest else (k1, v1) :: mapSet rest k v

/-- Embeds `GoogleSTTService.checkRateLimit` (part_001 lines 58-81).
`now` is the value of `Date.now()` at the call.  Returns the updated
`requestCount` map on acceptance.  Note that on acceptance the stored list is
`recentRequests` — the entries younger than 60 s — plus `now`; entries older
than 60 s are discarded even when they are still younger than 3600 s. -/
def checkRateLimit (requestCount : List (String × List Nat)) (clientId : String)
    (now : Nat) : Except JsError (List (String × List Nat)) :=
  let clientRequests := mapGetD requestCount clientId
  let recentRequests := clientRequests.filter (fun time => now - time < 60000)
  if speechConfig.rateLimitPerMinute ≤ recentRequests.length then
    .error { code := none, msg := RATE_LIMIT_EXCEEDED }
  else
    let hourlyRequests := clientRequests.filter (fun time => now - time < 3600000)
    if speechConfig.rateLimitPerHour ≤ hourlyRequests.length then
      .error { code := none, msg := RATE_LIMIT_EXCEEDED }
    else
      .ok (mapSet requestCount clientId (recentRequests ++ [now]))

/-- Embeds `GoogleSTTService.validateAudioFile` (part_001 lines 37-55):
size ceiling, format allow-list on the lower-cased format, then the
estimated-duration ceiling `length / (sampleRate * 2) > maxAudioLength`. -/
def validateAudioFile (bufLen : Nat) (format : String) : Except JsError Bool :=
  if speechConfig.maxFileSize < bufLen then
    .error { code := none, msg := FILE_TOO_LARGE }
  else if (speechConfig.supportedFormats.contains (strLower format)) = false then
    .error { code := none, msg := UNSUPPORTED_FORMAT }
  else
    let estimatedDuration : ℚ := (bufLen : ℚ) / ((speechConfig.sampleRateHertz : ℚ) * 2)
    if (speechConfig.maxAudioLength : ℚ) < estimatedDuration then
      .error { code := none, msg := AUDIO_TOO_LONG }
    else
      .ok true

/-- The `formatMap` object of `getEncodingConfig` (part_001 lines 85-90). -/
def formatMap : List (String × String) :=
  [("webm", "WEBM_OPUS"), ("wav", "LINEAR16"), ("mp3", "MP3"), ("ogg", "OGG_OPUS")]

/-- Embeds `GoogleSTTService.getEncodingConfig` (part_001 lines 84-93):
`formatMap[format.toLowerCase()] || 'WEBM_OPUS'`. -/
def getEncodingConfig (format : String) : String :=
  jsOrString ((formatMap.find? (fun p => p.1 == strLower format)).map (fun p => p.2))
    speechConfig.encoding

/-- A recognizer-native timestamp `{ seconds, nanos }`, with either field
possibly absent as in the wire protocol. -/
structure RTime where
  seconds : Option ℚ
  nanos : Option ℚ
deriving DecidableEq

/-- A recognizer-native word info record. -/
structure RWord where
  word : String
  startTime : Option RTime
  endTime : Option RTime
  confidence : Option ℚ
deriving DecidableEq

/-- A recognizer-native transcript alternative. -/
structure RAlt where
  transcript : Option String
  confidence : Option ℚ
  words : Option (List RWord)
deriving DecidableEq

/-- One recognizer-native ranked result. -/
structure RResult where
  alternatives : List RAlt
deriving DecidableEq

/-- The remote recognizer response: the `results` field can be absent. -/
structure RecognizeResponse where
  results : Option (List RResult)
deriving DecidableEq

/-- Outcome of the remote `speechClient.recognize` call: a response, or a
thrown error (possibly carrying a gRPC status code). -/
inductive RemoteOutcome where
  | ok (resp : RecognizeResponse)
  | err (e : JsError)
deriving DecidableEq

/-- Embeds the timestamp conversion of part_001 lines 178-179:
`t ? parseFloat(t.seconds || 0) + (t.nanos || 0) / 1e9 : 0`. -/
def timeVal (t : Option RTime) : ℚ :=
  match t with
  | none => 0
  | some tv => (tv.seconds.getD 0) + (tv.nanos.getD 0) / 1000000000

/-- An entry of the `alternatives` list of a transcription result
(part_001 lines 170-173); the transcript is carried over unchanged from the
remote alternative, so it can be absent. -/
structure AltEntry where
  transcript : Option String
  confidence : ℚ
deriving DecidableEq

/-- An entry of the `wordDetails` list (part_001 lines 176-181). -/
structure WordEntry where
  word : String
  startTime : ℚ
  endTime : ℚ
  confidence : ℚ
deriving DecidableEq

/-- The `debug` block of a successful single-request result
(part_001 lines 192-197). -/
structure DebugInfo where
  totalResults : Nat
  encoding : String
  sampleRate : Nat
  audioSize : Nat
deriving DecidableEq

/-- The object returned by `transcribeAudio`/`transcribeLongAudio`.
`chunks` is only present on merged long-audio results and `debug` only on
non-empty single-request results; absence is modelled by `none`. -/
structure RecognitionResult where
  success : Bool
  transcription : String
  confidence : ℚ
  processingTime : Nat
  alternatives : List AltEntry
  wordDetails : List WordEntry
  chunks : Option Nat
  debug : Option DebugInfo
deriving DecidableEq

/-- The `options` argument of `transcribeAudio` (fields the service reads). -/
structure STTOptions where
  clientId : Option String
  sampleRate : Option Nat
  languageCode : Option String
deriving DecidableEq

/-- The mutable fields of the `GoogleSTTService` singleton that the embedded
operations read and write. -/
structure ServiceState where
  initDone : Bool
  requestCount : List (String × List Nat)
deriving DecidableEq

/-- The recognition `config` object built by `transcribeAudio`
(part_001 lines 113-132). -/
structure RequestConfig where
  encoding : String
  sampleRateHertz : Nat
  languageCode : String
  alternativeLanguageCodes : List String
  enableAutomaticPunctuation : Bool
  enableWordTimeOffsets : Bool
  enableWordConfidence : Bool
  model : String
  useEnhanced : Bool
  audioChannelCount : Nat
  enableSeparateRecognitionPerChannel : Bool
  profanityFilter : Bool
  enableSpokenPunctuation : Bool
  enableSpokenEmojis : Bool
deriving DecidableEq

/-- Embeds `GoogleSTTService.transcribeAudio` (part_001 lines 96-224).

Arguments beyond the service state and the JS parameters are the oracles for
the effects inside the try-block: `initOk` is whether the lazy
`this.initialize()` would succeed, `now` is `Date.now()` as seen by the rate
limiter, `remote` is the outcome of `speechClient.recognize`, and `procTime`
is the measured wall-clock elapsed time in milliseconds.

The result is the returned value or the classified thrown error (every error
raised inside the try-block passes through the catch-block classifier,
`classifyError`), the updated service state, and whether the remote
recognizer was invoked. -/
def transcribeAudio (st : ServiceState) (bufLen : Nat) (format : String)
    (opts : STTOptions) (initOk : Bool) (now : Nat) (remote : RemoteOutcome)
    (procTime : Nat) : Except JsError RecognitionResult × ServiceState × Bool :=
  let step1 : Except JsError ServiceState :=
    if st.initDone then .ok st
    else if initOk then .ok { st with initDone := true }
    else .error { code := none, msg := sttInitFailMsg }
  match step1 with
  | .error e => (.error (classifyError e), st, false)
  | .ok st1 =>
    match validateAudioFile bufLen format with
    | .error e => (.error (classifyError e), st1, false)
    | .ok _ =>
      let clientId := jsOrString opts.clientId defaultClientId
      match checkRateLimit st1.requestCount clientId now with
      | .error e => (.error (classifyError e), st1, false)
      | .ok newCounts =>
        let st2 : ServiceState := { st1 with requestCount := newCounts }
        let encoding := getEncodingConfig format
        let config : RequestConfig :=
          { encoding := encoding
            sampleRateHertz := jsOrNat opts.sampleRate speechConfig.sampleRateHertz
            languageCode := jsOrString opts.languageCode speechConfig.languageCode
            alternativeLanguageCodes := speechConfig.alternativeLanguageCodes
            enableAutomaticPunctuation := speechConfig.enableAutomaticPunctuation
            enableWordTimeOffsets := speechConfig.enableWordTimeOffsets
            enableWordConfidence := speechConfig.enableWordConfidence
            model := speechConfig.model
            useEnhanced := speechConfig.useEnhanced
            audioChannelCount := 1
            enableSeparateRecognitionPerChannel := false
            profanityFilter := false
            enableSpokenPunctuation := true
            enableSpokenEmojis := false }
        match remote with
        | .err e => (.error (classifyError e), st2, true)
        | .ok response =>
          match response.results with
          | none =>
            (.ok { success := true, transcription := "", confidence := 0,
                   processingTime := procTime, alternatives := [], wordDetails := [],
                   chunks := none, debug := none }, st2, true)
          | some [] =>
            (.ok { success := true, transcription := "", confidence := 0,
                   processingTime := procTime, alternatives := [], wordDetails := [],
                   chunks := none, debug := none }, st2, true)
          | some (bestResult :: moreResults) =>
            match bestResult.alternatives with
            | [] => (.error (classifyError { code := none, msg := undefinedWordsMsg }), st2, true)
            | bestAlternative :: restAlts =>
              let alternatives := (restAlts.take 2).map (fun alt =>
                ({ transcript := alt.transcript, confidence := jsOrRat alt.confidence } : AltEntry))
              let wordDetails : List WordEntry :=
                match bestAlternative.words with
                | none => []
                | some ws => ws.map (fun w =>
                    { word := w.word, startTime := timeVal w.startTime,
                      endTime := timeVal w.endTime, confidence := jsOrRat w.confidence })
              (.ok { success := true,
                     transcription := jsOrString bestAlternative.transcript emptyStr,
                     confidence := jsOrRat bestAlternative.confidence,
                     processingTime := procTime,
                     alternatives := alternatives,
                     wordDetails := wordDetails,
                     chunks := none,
                     debug := some { totalResults := (bestResult :: moreResults).length,
                                     encoding := encoding,
                                     sampleRate := config.sampleRateHertz,
                                     audioSize := bufLen } }, st2, true)

/-- The 4 MiB chunk threshold of `transcribeLongAudio` (part_001 line 230). -/
def maxChunkSize : Nat := 4 * 1024 * 1024

/-- Embeds the chunk-splitting loop of part_001 lines 239-241
(`for (i = 0; i < len; i += maxChunkSize) chunks.push(buf.slice(i, i + maxChunkSize))`)
as the list of slice lengths.  The loop runs at most `len` iterations (the
index grows by `maxChunkSize ≥ 1` each time), so `fuel = len` in
`chunkSizes` is sufficient for the loop to run to completion. -/
def chunkLoop : Nat → Nat → Nat → List Nat
  | 0, _, _ => []
  | fuel + 1, i, len =>
    if i < len then min maxChunkSize (len - i) :: chunkLoop fuel (i + maxChunkSize) len
    else []

/-- The chunk sizes produced for a buffer of length `len`. -/
def chunkSizes (len : Nat) : List Nat := chunkLoop len 0 len

/-- Observable events of a `transcribeLongAudio` run: a `transcribeAudio`
invocation with the caller identity and buffer size it received, or the
1-second inter-chunk pacing delay of part_001 line 259. -/
inductive LongEvent where
  | call (clientId : String) (size : Nat)
  | pause
deriving DecidableEq

/-- Embeds the sequential chunk loop of `transcribeLongAudio`
(part_001 lines 246-261): chunk `i` is transcribed with the caller identity
`(options.clientId || 'default') + '_chunk_' + i`, its result is appended and
its processing time accumulated, a pacing delay is inserted after every chunk
but the last, and a thrown chunk error aborts the whole loop. -/
def processChunks (format : String) (opts : STTOptions) (initOk : Bool)
    (nows : Nat → Nat) (remotes : Nat → RemoteOutcome) (times : Nat → Nat) :
    List Nat → Nat → Nat → ServiceState → List RecognitionResult → Nat →
    List LongEvent → Except JsError (List RecognitionResult × Nat) × ServiceState × List LongEvent
  | [], _, _, st, results, total, evs => (.ok (results, total), st, evs)
  | size :: rest, i, n, st, results, total, evs =>
    let chunkClientId := jsOrString opts.clientId defaultClientId ++ "_chunk_" ++ toString i
    let chunkOpts : STTOptions := { opts with clientId := some chunkClientId }
    let r := transcribeAudio st size format chunkOpts initOk (nows i) (remotes i) (times i)
    let evs1 := evs ++ [LongEvent.call chunkClientId size]
    match r with
    | (.error e, st1, _) => (.error e, st1, evs1)
    | (.ok chunkResult, st1, _) =>
      let evs2 := if i < n - 1 then evs1 ++ [LongEvent.pause] else evs1
      processChunks format opts initOk nows remotes times rest (i + 1) n st1
        (results ++ [chunkResult]) (total + chunkResult.processingTime) evs2

/-- Embeds `GoogleSTTService.transcribeLongAudio` (part_001 lines 227-287).
Buffers at or below the 4 MiB threshold delegate to `transcribeAudio`;
larger buffers are split, processed sequentially by `processChunks`, and the
chunk results merged: space-joined non-empty transcripts, confidence averaged
over all chunk results, processing times summed.  The per-chunk oracles
`nows`, `remotes` and `times` are indexed by chunk index.  The third
component of the result is the event trace. -/
def transcribeLongAudio (st : ServiceState) (bufLen : Nat) (format : String)
    (opts : STTOptions) (initOk : Bool) (nows : Nat → Nat)
    (remotes : Nat → RemoteOutcome) (times : Nat → Nat) :
    Except JsError RecognitionResult × ServiceState × List LongEvent :=
  if bufLen ≤ maxChunkSize then
    match transcribeAudio st bufLen format opts initOk (nows 0) (remotes 0) (times 0) with
    | (r, st1, _) => (r, st1, [LongEvent.call (jsOrString opts.clientId defaultClientId) bufLen])
  else
    match processChunks format opts initOk nows remotes times (chunkSizes bufLen) 0
        (chunkSizes bufLen).length st [] 0 [] with
    | (.error e, st1, evs) => (.error e, st1, evs)
    | (.ok (results, totalProcessingTime), st1, evs) =>
      let combinedTranscription :=
        String.intercalate (" ")
          ((results.map (fun r => r.transcription)).filter (fun t => t.length > 0))
      let averageConfidence : ℚ :=
        if results.length > 0 then
          (results.foldl (fun sum r => sum + r.confidence) 0) / (results.length : ℚ)
        else 0
      (.ok { success := true, transcription := combinedTranscription,
             confidence := averageConfidence, processingTime := totalProcessingTime,
             chunks := some results.length, alternatives := [], wordDetails := [],
             debug := none }, st1, evs)

/-- State of the `WorkloadIdentityManager` singleton (part_002): the
`GoogleAuth` object and the auth client are modelled as opaque numeric
handles (`none` embeds JS `null`), `initDone` embeds `this.initialized`. -/
structure WIMState where
  auth : Option Nat
  client : Option Nat
  initDone : Bool
deriving DecidableEq

/-- Oracles for the credential-manager effects: which environment branch the
constructor takes, and the outcomes of `auth.getClient()`,
`auth.getProjectId()` and `client.getAccessToken()` (whose `token` field can
be absent). -/
structure AuthEnv where
  githubActions : Bool
  clientOutcome : Except JsError Nat
  projectIdOutcome : Except JsError String
  tokenOutcome : Except JsError (Option String)
deriving DecidableEq

/-- Message of the error thrown when `WorkloadIdentityManager.initialize`
fails (part_002 line 50). -/
def initFailMsg : String := "認証の初期化に失敗しました"

/-- Message of the error thrown when `getAccessToken` fails after
initialization (part_002 line 86). -/
def tokenFailMsg : String := "アクセストークンの取得に失敗しました"

/-- Message of the error thrown by the fail-fast accessors of part_002
(lines 78, 94 and 102) when the manager is not yet initialized. -/
def notInitMsg : String := "WorkloadIdentityManager is not initialized. Call initialize() first."

/-- Message of the error thrown when `refreshAuthentication` fails
(part_002 line 123). -/
def refreshFailMsg : String := "認証のリフレッシュに失敗しました"

/-- Embeds the JS truthiness test `!accessToken` of part_002 line 62:
an absent or empty token is falsy. -/
def jsFalsyToken (t : Option String) : Bool :=
  match t with
  | none => true
  | some s => s = ""

/-- Embeds `WorkloadIdentityManager.initialize` of part_002 (lines 12-52).

If already initialized it returns immediately.  Otherwise it constructs a
`GoogleAuth` (either environment branch sets `this.auth`), obtains the auth
client and — per the source comment on line 38-39 — sets `this.initialized`
to `true` at that point, *before* the authentication test.  It then runs
`testAuthentication` (fetch the project id, then an access token via
`getAccessToken`, whose guard passes because `initialized` is already true).
Any failure is re-thrown as `initFailMsg`, but a failure of the probe leaves
`initialized` true and the client set. -/
def wimInit (st : WIMState) (env : AuthEnv) : Except JsError Unit × WIMState :=
  if st.initDone then (.ok (), st)
  else
    let st1 : WIMState := { st with auth := some 1 }
    match env.clientOutcome with
    | .error _ => (.error { code := none, msg := initFailMsg }, st1)
    | .ok c =>
      let st2 : WIMState := { st1 with client := some c, initDone := true }
      match env.projectIdOutcome with
      | .error _ => (.error { code := none, msg := initFailMsg }, st2)
      | .ok _ =>
        match env.tokenOutcome with
        | .error _ => (.error { code := none, msg := initFailMsg }, st2)
        | .ok tok =>
          if jsFalsyToken tok then (.error { code := none, msg := initFailMsg }, st2)
          else (.ok (), st2)

/-- Embeds `WorkloadIdentityManager.getAccessToken` of part_002
(lines 74-88): fails fast with `notInitMsg` when not initialized; otherwise
calls `client.getAccessToken()` over the network, wrapping a failure as
`tokenFailMsg`.  The `Bool` records whether a network call was made. -/
def wimGetAccessToken (st : WIMState) (env : AuthEnv) :
    Except JsError (Option String) × Bool :=
  if st.initDone = false then (.error { code := none, msg := notInitMsg }, false)
  else
    match env.tokenOutcome with
    | .error _ => (.error { code := none, msg := tokenFailMsg }, true)
    | .ok t => (.ok t, true)

/-- Embeds `WorkloadIdentityManager.getAuthenticatedClient` of part_002
(lines 92-97): fails fast with `notInitMsg` when not initialized, otherwise
returns `this.client` without any network call. -/
def wimGetAuthClient (st : WIMState) : Except JsError (Option Nat) × Bool :=
  if st.initDone = false then (.error { code := none, msg := notInitMsg }, false)
  else (.ok st.client, false)

/-- Embeds `WorkloadIdentityManager.getProjectId` of part_002
(lines 100-105): fails fast with `notInitMsg` when not initialized, otherwise
calls `auth.getProjectId()` over the network (no catch in this method, so the
oracle error propagates unchanged). -/
def wimGetProjectId (st : WIMState) (env : AuthEnv) : Except JsError String × Bool :=
  if st.initDone = false then (.error { code := none, msg := notInitMsg }, false)
  else
    match env.projectIdOutcome with
    | .error e => (.error e, true)
    | .ok p => (.ok p, true)

/-- Embeds `WorkloadIdentityManager.isAuthenticated` of part_002
(lines 108-110): `this.initialized && this.client !== null`. -/
def wimIsAuthenticated (st : WIMState) : Bool :=
  st.initDone && st.client.isSome

/-- Embeds `WorkloadIdentityManager.refreshAuthentication` of part_002
(lines 113-125).  The try-block sets `this.initialized = false` and
`this.client = null`, then executes `tiis.auth = null` — a misspelling of
`this.auth`, so this statement raises a ReferenceError (`tiis` is not
defined) on every execution.  The catch-block rethrows it as
`refreshFailMsg`, so `this.initialize()` on line 119 is never reached, the
auth handle is never cleared, and the method never succeeds.  The unused
`AuthEnv` argument stands for the environment the unreached `initialize()`
would have used. -/
def wimRefreshAuth (st : WIMState) (_env : AuthEnv) : Except JsError Unit × WIMState :=
  let st1 : WIMState := { st with initDone := false, client := none }
  (.error { code := none, msg := refreshFailMsg }, st1)

/-- A credential environment in which every probe step succeeds. -/
def envGood : AuthEnv :=
  { githubActions := false, clientOutcome := .ok 2,
    projectIdOutcome := .ok ("demo-project"), tokenOutcome := .ok (some ("token-abc")) }

/-- The error produced by a failing `auth.getProjectId()` probe. -/
def probeErr : JsError := { code := none, msg := "getProjectId failed" }

/-- A credential environment in which obtaining the auth client succeeds but
the project-id step of the liveness probe fails. -/
def envProbeFail : AuthEnv :=
  { githubActions := false, clientOutcome := .ok 7,
    projectIdOutcome := .error probeErr, tokenOutcome := .ok (some ("token-abc")) }

/-- Helper: `validateAudioFile` characterized with integer conditions; the
duration test `300 < len / (16000 * 2)` over `ℚ` holds exactly when
`9600000 < len`. -/
theorem validateAudioFile_char (bufLen : Nat) (format : String) :
    validateAudioFile bufLen format =
      if speechConfig.maxFileSize < bufLen then .error { code := none, msg := FILE_TOO_LARGE }
      else if (speechConfig.supportedFormats.contains (strLower format)) = false then
        .error { code := none, msg := UNSUPPORTED_FORMAT }
      else if 9600000 < bufLen then .error { code := none, msg := AUDIO_TOO_LONG }
      else .ok true := by
  have key : ((speechConfig.maxAudioLength : ℚ) <
      (bufLen : ℚ) / ((speechConfig.sampleRateHertz : ℚ) * 2)) ↔ 9600000 < bufLen := by
    simp only [speechConfig]
    rw [lt_div_iff₀ (by norm_num)]
    constructor
    · intro h
      exact_mod_cast h
    · intro h
      exact_mod_cast h
  unfold validateAudioFile
  simp only [key]

/-- Helper: the JS `c || 0` embedding agrees with `Option.getD`. -/
theorem jsOrRat_getD (v : Option ℚ) : jsOrRat v = v.getD 0 := by
  cases v with
  | none => rfl
  | some c =>
    by_cases h : c = 0
    · simp [jsOrRat, h]
    · simp [jsOrRat, h]

/-- Helper: the residue of `bestAlternative.transcript || ''` collapses. -/
theorem ite_empty_self (s : String) : (if s = "" then emptyStr else s) = s := by
  by_cases h : s = ""
  · simp [h, emptyStr]
  · simp [h]

/-- Helper: both throw sites of `checkRateLimit` raise the same error. -/
theorem checkRateLimit_error_msg (m : List (String × List Nat)) (c : String) (t : Nat)
    (e : JsError) (h : checkRateLimit m c t = .error e) :
    e = { code := none, msg := RATE_LIMIT_EXCEEDED } := by
  unfold checkRateLimit at h
  dsimp only at h
  split_ifs at h with h1 h2
  · cases h
    rfl
  · cases h
    rfl

/-- Helper: the catch-block classifier re-wraps the local file-size error,
whose Japanese text matches none of the gRPC codes or substrings. -/
theorem classify_file_too_large :
    classifyError { code := none, msg := FILE_TOO_LARGE } =
      { code := none, msg := TRANSCRIPTION_FAILED ++ colonSep ++ FILE_TOO_LARGE } := by
  decide

/-- Helper: the catch-block classifier re-wraps the local rate-limit error,
whose Japanese text matches none of the gRPC codes or substrings. -/
theorem classify_rate_limited :
    classifyError { code := none, msg := RATE_LIMIT_EXCEEDED } =
      { code := none, msg := TRANSCRIPTION_FAILED ++ colonSep ++ RATE_LIMIT_EXCEEDED } := by
  decide

/-- Helper: a 100-byte webm buffer passes validation. -/
theorem validate_small_webm : validateAudioFile 100 ("webm") = .ok true := by
  rw [validateAudioFile_char]
  decide

/-- Helper: a buffer one byte over the chunk threshold splits into a full
chunk and a 1-byte chunk. -/
theorem chunkSizes_4194305 : chunkSizes 4194305 = [4194304, 1] := by decide

/-- Helper: a 4 MiB webm chunk passes validation. -/
theorem validate_chunk_webm : validateAudioFile 4194304 ("webm") = .ok true := by
  rw [validateAudioFile_char]
  decide

/-- Helper: a 1-byte webm chunk passes validation. -/
theorem validate_one_webm : validateAudioFile 1 ("webm") = .ok true := by
  rw [validateAudioFile_char]
  decide

/-- Helper: a buffer of exactly four times the chunk threshold splits into
four full chunks. -/
theorem chunkSizes_four : chunkSizes (4 * maxChunkSize) =
    [maxChunkSize, maxChunkSize, maxChunkSize, maxChunkSize] := by
  decide

/-- Helper: a full 4 MiB chunk passes validation (threshold-named form). -/
theorem validate_maxChunk_webm : validateAudioFile maxChunkSize ("webm") = .ok true := by
  rw [validateAudioFile_char]
  decide

/-- Helper: the caller identity of chunk 0. -/
theorem chunkId0 : defaultClientId ++ "_chunk_" ++ toString 0 = "default_chunk_0" := by decide

/-- Helper: the caller identity of chunk 1. -/
theorem chunkId1 : defaultClientId ++ "_chunk_" ++ toString 1 = "default_chunk_1" := by decide

/-- Helper: the caller identity of chunk 2. -/
theorem chunkId2 : defaultClientId ++ "_chunk_" ++ toString 2 = "default_chunk_2" := by decide

/-- Helper: the caller identity of chunk 3. -/
theorem chunkId3 : defaultClientId ++ "_chunk_" ++ toString 3 = "default_chunk_3" := by decide

/-- Helper: a concrete chunked run (two chunks, both yielding empty remote
results) evaluated end to end. -/
theorem C9_concrete_run :
    transcribeLongAudio { initDone := true, requestCount := [] } 4194305 ("webm")
        { clientId := none, sampleRate := none, languageCode := none } true (fun _ => 0)
        (fun _ => .ok { results := some [] }) (fun _ => 1) =
      (.ok { success := true, transcription := "", confidence := 0, processingTime := 2,
             alternatives := [], wordDetails := [], chunks := some 2, debug := none },
       { initDone := true,
         requestCount := [(("default_chunk_0"), [0]), (("default_chunk_1"), [0])] },
       [LongEvent.call ("default_chunk_0") 4194304, LongEvent.pause,
        LongEvent.call ("default_chunk_1") 1]) := by
  unfold transcribeLongAudio
  rw [if_neg (by norm_num [maxChunkSize])]
  simp only [chunkSizes_4194305, List.length_cons, List.length_nil]
  simp +decide [processChunks, transcribeAudio, validate_chunk_webm, validate_one_webm,
    checkRateLimit, mapGetD, mapSet, jsOrString, jsOrNat, jsOrRat, defaultClientId,
    speechConfig, getEncodingConfig, formatMap, List.find?]

/-- Claim C1: the claim states that the rate limiter retains every accepted
request timestamp of the past 3600 s, so the long-window count equals the
number of requests accepted in the past hour.  The code instead stores only
the 60 s-filtered list plus the new instant (part_001 lines 77-78): after a
request accepted at t = 0 ms and another at t = 70000 ms, the stored history
for the caller is just `[70000]`, the timestamp 0 — still well inside the
3600 s window at t = 140000 ms — has been dropped, and the hourly filter at
t = 140000 ms counts 1 accepted request instead of 2. -/
theorem C1_hourly_history_dropped :
    checkRateLimit [] ("c") 0 = .ok [(("c"), [0])] ∧
    checkRateLimit [(("c"), [0])] ("c") 70000 = .ok [(("c"), [70000])] ∧
    (140000 - 0 < 3600000) ∧
    (mapGetD [(("c"), [70000])] ("c")).contains 0 = false ∧
    ((mapGetD [(("c"), [70000])] ("c")).filter
      (fun time => 140000 - time < 3600000)).length = 1 := by
  decide

/-- Claim C2 counterexample: for a buffer one byte over `maxFileSize`,
`transcribeAudio` does not propagate `FILE_TOO_LARGE` unchanged — the
catch-all classifier re-wraps it as `TRANSCRIPTION_FAILED + ': ' + msg`,
which differs from `FILE_TOO_LARGE`.  (No remote call occurs, as the final
`false` component shows.) -/
theorem C2_oversize_rewrapped_counterexample :
    transcribeAudio { initDone := true, requestCount := [] } (10 * 1024 * 1024 + 1) ("webm")
        { clientId := none, sampleRate := none, languageCode := none } true 0
        (.ok { results := none }) 5 =
      (.error { code := none, msg := TRANSCRIPTION_FAILED ++ colonSep ++ FILE_TOO_LARGE },
       { initDone := true, requestCount := [] }, false) ∧
    TRANSCRIPTION_FAILED ++ colonSep ++ FILE_TOO_LARGE ≠ FILE_TOO_LARGE := by
  decide

/-- Claim C2 amended: an oversized buffer makes `transcribeAudio` fail before
any remote recognizer call, but with the file-too-large message re-wrapped by
the catch-block as `TRANSCRIPTION_FAILED + ': ' + FILE_TOO_LARGE` rather
than propagated unchanged; likewise a local rate-limit rejection aborts
before any remote call but is re-wrapped as
`TRANSCRIPTION_FAILED + ': ' + RATE_LIMIT_EXCEEDED` (the local Japanese
messages carry no gRPC code and match neither the `rate limit` nor the
`quota` substring classifier).  The service state is left unchanged. -/
theorem C2_local_errors_rewrapped :
    (∀ (st : ServiceState) (bufLen : Nat) (format : String) (opts : STTOptions)
        (initOk : Bool) (now : Nat) (remote : RemoteOutcome) (procTime : Nat),
        st.initDone = true → speechConfig.maxFileSize < bufLen →
        transcribeAudio st bufLen format opts initOk now remote procTime =
          (.error { code := none, msg := TRANSCRIPTION_FAILED ++ colonSep ++ FILE_TOO_LARGE },
           st, false)) ∧
    (∀ (st : ServiceState) (bufLen : Nat) (format : String) (opts : STTOptions)
        (initOk : Bool) (now : Nat) (remote : RemoteOutcome) (procTime : Nat) (e : JsError),
        st.initDone = true →
        validateAudioFile bufLen format = .ok true →
        checkRateLimit st.requestCount (jsOrString opts.clientId defaultClientId) now = .error e →
        transcribeAudio st bufLen format opts initOk now remote procTime =
          (.error { code := none, msg := TRANSCRIPTION_FAILED ++ colonSep ++ RATE_LIMIT_EXCEEDED },
           st, false)) := by
  constructor
  · intro st bufLen format opts initOk now remote procTime hInit hBig
    have hval : validateAudioFile bufLen format = .error { code := none, msg := FILE_TOO_LARGE } := by
      rw [validateAudioFile_char]
      simp [hBig]
    simp only [transcribeAudio, hInit, if_true, hval, classify_file_too_large]
  · intro st bufLen format opts initOk now remote procTime e hInit hval hrate
    have he := checkRateLimit_error_msg _ _ _ _ hrate
    subst he
    simp only [transcribeAudio, hInit, if_true, hval, hrate, classify_rate_limited]

/-- Claim C2 witness: the amended claim instantiated at a 10 MiB + 1 buffer
and at a caller whose 60-slot minute window is already full. -/
theorem C2_local_errors_rewrapped_witness :
    transcribeAudio { initDone := true, requestCount := [] } (10 * 1024 * 1024 + 1) ("webm")
        { clientId := none, sampleRate := none, languageCode := none } true 0
        (.ok { results := none }) 5 =
      (.error { code := none, msg := TRANSCRIPTION_FAILED ++ colonSep ++ FILE_TOO_LARGE },
       { initDone := true, requestCount := [] }, false) ∧
    transcribeAudio { initDone := true, requestCount := [(("default"), List.replicate 60 0)] }
        100 ("webm") { clientId := none, sampleRate := none, languageCode := none } true 0
        (.ok { results := none }) 5 =
      (.error { code := none, msg := TRANSCRIPTION_FAILED ++ colonSep ++ RATE_LIMIT_EXCEEDED },
       { initDone := true, requestCount := [(("default"), List.replicate 60 0)] }, false) :=
  ⟨C2_local_errors_rewrapped.1 _ _ _ _ _ _ _ _ rfl (by decide),
   C2_local_errors_rewrapped.2 _ _ _ _ _ _ _ _ { code := none, msg := RATE_LIMIT_EXCEEDED }
     rfl validate_small_webm (by decide)⟩

/-- Claim C3 counterexample: running `initialize` of the part_002 manager
from the uninitialized state in an environment where the auth client is
obtained but the liveness probe fails makes the operation fail, yet
`isAuthenticated()` afterwards returns `true` — contradicting the claim that
a probe failure leaves the manager not Ready. -/
theorem C3_probe_failure_counterexample :
    (wimInit { auth := none, client := none, initDone := false } envProbeFail).1 =
      .error { code := none, msg := initFailMsg } ∧
    wimIsAuthenticated
      (wimInit { auth := none, client := none, initDone := false } envProbeFail).2 = true := by
  decide

/-- Claim C3 amended: `initialize` of the part_002 manager marks the manager
initialized as soon as the auth client is obtained — before the liveness
probe — so when the probe then fails the whole operation fails with the
initialization error, but the manager remains marked initialized with a
client set, and `isAuthenticated()` returns `true` afterwards. -/
theorem C3_ready_before_probe (st : WIMState) (env : AuthEnv) (c : Nat) (e : JsError)
    (h1 : st.initDone = false) (h2 : env.clientOutcome = .ok c)
    (h3 : env.projectIdOutcome = .error e) :
    (wimInit st env).1 = .error { code := none, msg := initFailMsg } ∧
    (wimInit st env).2.initDone = true ∧
    wimIsAuthenticated (wimInit st env).2 = true := by
  simp [wimInit, wimIsAuthenticated, h1, h2, h3]

/-- Claim C3 witness: the amended claim instantiated at the uninitialized
state and the probe-failing environment. -/
theorem C3_ready_before_probe_witness :
    (wimInit { auth := none, client := none, initDone := false } envProbeFail).1 =
      .error { code := none, msg := initFailMsg } ∧
    (wimInit { auth := none, client := none, initDone := false } envProbeFail).2.initDone = true ∧
    wimIsAuthenticated
      (wimInit { auth := none, client := none, initDone := false } envProbeFail).2 = true :=
  C3_ready_before_probe { auth := none, client := none, initDone := false } envProbeFail 7
    probeErr rfl rfl rfl

/-- Claim C4 counterexample: the claim quantifies over every invocation
"before a successful initialize()", but that includes the state left by an
`initialize` attempt whose liveness probe failed.  Running `initialize` from
the fresh state in `envProbeFail` fails (first conjunct — so no successful
`initialize` has ever completed), yet in the resulting state the manager is
already marked initialized: `getAccessToken` returns a token and
`getProjectId` a project id, each with the network flag `true`, and
`getAuthenticatedClient` returns the client — none of the three fails with
the not-initialized error, and two of them perform network calls. -/
theorem C4_probe_failed_accessors_counterexample :
    (wimInit { auth := none, client := none, initDone := false } envProbeFail).1 =
      .error { code := none, msg := initFailMsg } ∧
    wimGetAccessToken
      (wimInit { auth := none, client := none, initDone := false } envProbeFail).2 envGood =
      (.ok (some ("token-abc")), true) ∧
    wimGetAuthClient
      (wimInit { auth := none, client := none, initDone := false } envProbeFail).2 =
      (.ok (some 7), false) ∧
    wimGetProjectId
      (wimInit { auth := none, client := none, initDone := false } envProbeFail).2 envGood =
      (.ok ("demo-project"), true) := by
  decide

/-- Claim C4 amended: each of `getAccessToken`, `getAuthenticatedClient` and
`getProjectId` on the part_002 manager, invoked while the manager's
initialized flag is unset (in particular before any `initialize` attempt),
fails with the not-initialized error and performs no network call (the
`false` components): no implicit re-initialization is attempted.  The guard
is that flag, not a *successful* `initialize`: an attempt that obtained the
auth client but failed its liveness probe leaves the flag set, and the
accessors then proceed (see `C4_probe_failed_accessors_counterexample`). -/
theorem C4_accessors_fail_fast (st : WIMState) (env : AuthEnv) (h : st.initDone = false) :
    wimGetAccessToken st env = (.error { code := none, msg := notInitMsg }, false) ∧
    wimGetAuthClient st = (.error { code := none, msg := notInitMsg }, false) ∧
    wimGetProjectId st env = (.error { code := none, msg := notInitMsg }, false) := by
  simp [wimGetAccessToken, wimGetAuthClient, wimGetProjectId, h]

/-- Claim C4 witness: the amended claim instantiated at the freshly
constructed manager state. -/
theorem C4_accessors_fail_fast_witness :
    wimGetAccessToken { auth := none, client := none, initDone := false } envGood =
      (.error { code := none, msg := notInitMsg }, false) ∧
    wimGetAuthClient { auth := none, client := none, initDone := false } =
      (.error { code := none, msg := notInitMsg }, false) ∧
    wimGetProjectId { auth := none, client := none, initDone := false } envGood =
      (.error { code := none, msg := notInitMsg }, false) :=
  C4_accessors_fail_fast { auth := none, client := none, initDone := false } envGood rfl

/-- Claim C5: for a buffer of exactly four times the 4 MiB chunk threshold,
`transcribeLongAudio` performs exactly four chunk invocations in strict index
order, each with the caller identity suffixed `_chunk_i`, with a pacing delay
between consecutive chunks only (three delays); the merged result joins the
non-empty per-chunk transcripts with spaces in chunk order, averages all four
chunk confidences, and sums the chunk processing times. -/
theorem C5_chunked_merge (ts : Nat → String) (cs : Nat → ℚ) (tms : Nat → Nat)
    (nows : Nat → Nat) (initOk : Bool) :
    transcribeLongAudio { initDone := true, requestCount := [] } (4 * maxChunkSize) ("webm")
        { clientId := none, sampleRate := none, languageCode := none } initOk nows
        (fun i => .ok { results := some [{ alternatives :=
          [{ transcript := some (ts i), confidence := some (cs i), words := some [] }] }] })
        tms =
      (.ok { success := true,
             transcription := String.intercalate (" ")
               (([ts 0, ts 1, ts 2, ts 3]).filter (fun t => t.length > 0)),
             confidence := (cs 0 + cs 1 + cs 2 + cs 3) / 4,
             processingTime := tms 0 + tms 1 + tms 2 + tms 3,
             chunks := some 4, alternatives := [], wordDetails := [], debug := none },
       { initDone := true,
         requestCount := [(("default_chunk_0"), [nows 0]), (("default_chunk_1"), [nows 1]),
                          (("default_chunk_2"), [nows 2]), (("default_chunk_3"), [nows 3])] },
       [LongEvent.call ("default_chunk_0") maxChunkSize, LongEvent.pause,
        LongEvent.call ("default_chunk_1") maxChunkSize, LongEvent.pause,
        LongEvent.call ("default_chunk_2") maxChunkSize, LongEvent.pause,
        LongEvent.call ("default_chunk_3") maxChunkSize]) := by
  unfold transcribeLongAudio
  rw [if_neg (by norm_num [maxChunkSize])]
  simp only [chunkSizes_four, List.length_cons, List.length_nil]
  simp +decide [processChunks, transcribeAudio, validate_maxChunk_webm,
    chunkId0, chunkId1, chunkId2, chunkId3, ite_empty_self, jsOrRat_getD,
    checkRateLimit, mapGetD, mapSet, jsOrString, jsOrNat, defaultClientId,
    speechConfig, getEncodingConfig, formatMap, List.find?]

/-- Claim C6: whenever the remote recognizer response has no results (absent
or empty list) and the request reaches the remote call (service initialized,
validation and rate limit passing), `transcribeAudio` returns a *successful*
result with empty transcript, confidence 0, and empty alternatives and
word-details lists. -/
theorem C6_empty_results_success (st : ServiceState) (bufLen : Nat) (format : String)
    (opts : STTOptions) (initOk : Bool) (now : Nat) (resp : RecognizeResponse) (procTime : Nat)
    (m2 : List (String × List Nat))
    (h1 : st.initDone = true)
    (h2 : validateAudioFile bufLen format = .ok true)
    (h3 : checkRateLimit st.requestCount (jsOrString opts.clientId defaultClientId) now = .ok m2)
    (h4 : resp.results = none ∨ resp.results = some []) :
    transcribeAudio st bufLen format opts initOk now (.ok resp) procTime =
      (.ok { success := true, transcription := "", confidence := 0,
             processingTime := procTime, alternatives := [], wordDetails := [],
             chunks := none, debug := none },
       { st with requestCount := m2 }, true) := by
  rcases h4 with h4 | h4 <;> simp only [transcribeAudio, h1, if_true, h2, h3, h4]

/-- Claim C6 witness: a 100-byte webm buffer against a response whose result
list is empty. -/
theorem C6_empty_results_success_witness :
    transcribeAudio { initDone := true, requestCount := [] } 100 ("webm")
        { clientId := none, sampleRate := none, languageCode := none } true 0
        (.ok { results := some [] }) 7 =
      (.ok { success := true, transcription := "", confidence := 0,
             processingTime := 7, alternatives := [], wordDetails := [],
             chunks := none, debug := none },
       { initDone := true, requestCount := [(("default"), [0])] }, true) :=
  C6_empty_results_success _ _ _ _ _ _ _ _ _ rfl validate_small_webm (by decide) (Or.inr rfl)

/-- Claim C7: the format-to-encoding lookup maps `webm` to `WEBM_OPUS`,
`wav` to `LINEAR16`, `mp3` to `MP3`, `ogg` to `OGG_OPUS`, and any input whose
lower-casing is none of those keys falls back to `WEBM_OPUS` without error. -/
theorem C7_format_encoding :
    getEncodingConfig ("webm") = "WEBM_OPUS" ∧ getEncodingConfig ("wav") = "LINEAR16" ∧
    getEncodingConfig ("mp3") = "MP3" ∧ getEncodingConfig ("ogg") = "OGG_OPUS" ∧
    ∀ s : String, strLower s ≠ "webm" → strLower s ≠ "wav" → strLower s ≠ "mp3" →
      strLower s ≠ "ogg" → getEncodingConfig s = "WEBM_OPUS" := by
  refine ⟨by decide, by decide, by decide, by decide, ?_⟩
  intro s h1 h2 h3 h4
  have e1 : (("webm" : String) == strLower s) = false :=
    beq_eq_false_iff_ne.mpr (fun hh => h1 hh.symm)
  have e2 : (("wav" : String) == strLower s) = false :=
    beq_eq_false_iff_ne.mpr (fun hh => h2 hh.symm)
  have e3 : (("mp3" : String) == strLower s) = false :=
    beq_eq_false_iff_ne.mpr (fun hh => h3 hh.symm)
  have e4 : (("ogg" : String) == strLower s) = false :=
    beq_eq_false_iff_ne.mpr (fun hh => h4 hh.symm)
  simp [getEncodingConfig, formatMap, List.find?, e1, e2, e3, e4, jsOrString, speechConfig]

/-- Claim C7 witness: the unknown format `flac` falls back to `WEBM_OPUS`. -/
theorem C7_format_encoding_witness : getEncodingConfig ("flac") = "WEBM_OPUS" :=
  C7_format_encoding.2.2.2.2 ("flac") (by decide) (by decide) (by decide) (by decide)

/-- Claim C8: the claim states that `refreshAuthentication` clears all held
credential material (initialized flag, client and auth handle) and then runs
a fresh `initialize`, succeeding whenever that `initialize` succeeds.  In
part_002 the teardown line for the auth handle reads `tiis.auth = null`, a
ReferenceError on every execution, so refresh always fails with the
refresh-failure error, leaves the auth handle uncleared (`some 1` below), and
never reaches `initialize` — even in an environment (`envGood`) where a fresh
`initialize` from the torn-down state would succeed, as the second conjunct
shows. -/
theorem C8_refresh_always_fails :
    wimRefreshAuth { auth := some 1, client := some 2, initDone := true } envGood =
      (.error { code := none, msg := refreshFailMsg },
       { auth := some 1, client := none, initDone := false }) ∧
    (wimInit { auth := some 1, client := none, initDone := false } envGood).1 = .ok () := by
  decide

/-- Claim C9: every input taking the chunked long-audio path (buffer strictly
larger than the 4 MiB threshold) that returns successfully yields a merged
result whose `alternatives` and `wordDetails` lists are empty — the per-word
timing and alternative transcripts of individual chunks are discarded. -/
theorem C9_merged_discards_details (st : ServiceState) (bufLen : Nat) (format : String)
    (opts : STTOptions) (initOk : Bool) (nows : Nat → Nat) (remotes : Nat → RemoteOutcome)
    (times : Nat → Nat) (r : RecognitionResult) (st1 : ServiceState) (evs : List LongEvent)
    (hbig : maxChunkSize < bufLen)
    (hrun : transcribeLongAudio st bufLen format opts initOk nows remotes times =
      (.ok r, st1, evs)) :
    r.alternatives = [] ∧ r.wordDetails = [] := by
  unfold transcribeLongAudio at hrun
  rw [if_neg (by omega)] at hrun
  rcases hp : processChunks format opts initOk nows remotes times (chunkSizes bufLen) 0
      (chunkSizes bufLen).length st [] 0 [] with ⟨pr, pst, pevs⟩
  rw [hp] at hrun
  cases pr with
  | error e => simp at hrun
  | ok pair =>
    rcases pair with ⟨results, total⟩
    simp only [Prod.mk.injEq, Except.ok.injEq] at hrun
    rcases hrun with ⟨hr, _, _⟩
    rw [← hr]
    exact ⟨rfl, rfl⟩

/-- Claim C9 witness: the concrete two-chunk run of `C9_concrete_run`. -/
theorem C9_merged_discards_details_witness :
    ({ success := true, transcription := "", confidence := 0, processingTime := 2,
       alternatives := [], wordDetails := [], chunks := some 2,
       debug := none } : RecognitionResult).alternatives = [] ∧
    ({ success := true, transcription := "", confidence := 0, processingTime := 2,
       alternatives := [], wordDetails := [], chunks := some 2,
       debug := none } : RecognitionResult).wordDetails = [] :=
  C9_merged_discards_details _ _ _ _ _ _ _ _ _ _ _ (by norm_num [maxChunkSize]) C9_concrete_run

/-- Claim C10: both the validator's format allow-list check and the
format-to-encoding lookup depend on the declared format only through its
lower-casing, so any two format strings with the same lower-casing are
treated identically; in particular `WAV` passes validation and maps to
`LINEAR16`. -/
theorem C10_case_insensitive :
    (∀ (bufLen : Nat) (s t : String), strLower s = strLower t →
        validateAudioFile bufLen s = validateAudioFile bufLen t ∧
        getEncodingConfig s = getEncodingConfig t) ∧
    validateAudioFile 0 ("WAV") = .ok true ∧ getEncodingConfig ("WAV") = "LINEAR16" := by
  refine ⟨?_, by rw [validateAudioFile_char]; decide, by decide⟩
  intro bufLen s t h
  constructor
  · simp only [validateAudioFile, h]
  · simp only [getEncodingConfig, h]

/-- Claim C10 witness: `WAV` is treated exactly like `wav`. -/
theorem C10_case_insensitive_witness :
    validateAudioFile 0 ("WAV") = validateAudioFile 0 ("wav") ∧
    getEncodingConfig ("WAV") = getEncodingConfig ("wav") :=
  C10_case_insensitive.1 0 ("WAV") ("wav") (by decide)
